import Mathlib

/-!
Shallow embedding of `src/lib/src/json_rpc/reverse_proxy.rs`, the JSON-RPC
reverse-proxy multiplexer state machine of smoldot.

JSON text crossing the boundary is represented by inductive types whose
constructors stand for the possible outcomes of the parsing layer
(`json_rpc/methods.rs` and `json_rpc/parse.rs`, which are not part of the
sources under verification): a message *is* its parse result, and the
serializers are modelled from the spec as preserving every field other than
the one being rewritten.

Panics of the original (`assert!`, `todo!()`, `unreachable!()`, indexing a
vacant slab slot, `gen_range` over an empty range, the ill-typed
unfinished `Response::Error` arm) are modelled by returning `none`: a
panicking call has no successor state.

The `ChaCha20Rng` field is modelled by an explicit stream of draws threaded
through the operations; `gen_range(0..w)` with draw `n` yields `n % w` and
panics when `w = 0`, like the original. The iteration order of
`hashbrown::HashSet` is unspecified in the original and is modelled as the
list order; `BTreeSet` iteration is modelled by keeping the list sorted.
-/

namespace Smoldot

/-- Keep the elements of a list satisfying `p` (model of iterator `filter`
and of the `BTreeMap`/`BTreeSet` range-extractions, which split out exactly
the entries whose key has a given first component). -/
def filterKeep {α : Type} (p : α → Prop) [DecidablePred p] : List α → List α
  | [] => []
  | x :: rest => if p x then x :: filterKeep p rest else filterKeep p rest

/-- Lookup in an association list (model of `BTreeMap::get`). -/
def alistLookup {κ β : Type} [DecidableEq κ] (k : κ) : List (κ × β) → Option β
  | [] => none
  | e :: rest => if e.1 = k then some e.2 else alistLookup k rest

/-- Remove every entry with key `k` (model of `BTreeMap::remove`). -/
def alistEraseAll {κ β : Type} [DecidableEq κ] (k : κ) : List (κ × β) → List (κ × β)
  | [] => []
  | e :: rest => if e.1 = k then alistEraseAll k rest else e :: alistEraseAll k rest

/-- Overwrite the binding of `k` (model of `BTreeMap::insert` / in-place
mutation through `get_mut` or `entry`). -/
def alistUpdate {κ β : Type} [DecidableEq κ] (k : κ) (v : β) (l : List (κ × β)) :
    List (κ × β) :=
  (k, v) :: alistEraseAll k l

/-- Remove every occurrence of `x` from a list (model of set removal). -/
def removeAll {α : Type} [DecidableEq α] (x : α) : List α → List α
  | [] => []
  | y :: rest => if y = x then removeAll x rest else y :: removeAll x rest

/-- Strict lexicographic order on pairs of naturals, as used by the
`BTreeSet<(ServerId, ClientId)>` of the original. -/
def pairLt (a b : Nat × Nat) : Prop := a.1 < b.1 ∨ (a.1 = b.1 ∧ a.2 < b.2)

instance : DecidablePred (fun p : (Nat × Nat) × (Nat × Nat) => pairLt p.1 p.2) := by
  intro p
  unfold pairLt
  infer_instance

instance (a b : Nat × Nat) : Decidable (pairLt a b) := by
  unfold pairLt
  infer_instance

/-- Insert into a sorted list of pairs, keeping it sorted (model of
`BTreeSet::insert`; only called when the element is absent). -/
def sortedInsertPair (p : Nat × Nat) : List (Nat × Nat) → List (Nat × Nat)
  | [] => [p]
  | q :: rest => if pairLt p q then p :: q :: rest else q :: sortedInsertPair p rest

/-- Read an occupied slot of a `slab::Slab` (a vacant slot is `none`). -/
def slabGet {α : Type} (l : List (Option α)) (i : Nat) : Option α :=
  (l.get? i).join

/-- Overwrite a slot of a `slab::Slab`. -/
def slabSet {α : Type} (l : List (Option α)) (i : Nat) (v : Option α) : List (Option α) :=
  l.set i v

/-- Model of `slab::Slab::len`: the number of occupied slots. -/
def slabLen {α : Type} (l : List (Option α)) : Nat :=
  (filterKeep (fun x : Option α => x.isSome = true) l).length

/-- Model of `slab::Slab::insert`: store the value in a vacant slot and return its
index. Modelled as reusing the first vacant slot (the original's free-list
may reuse slots in a different order; only the returned index differs). -/
def slabInsertAux {α : Type} (l : List (Option α)) (v : α) : Nat × List (Option α) :=
  match l with
  | [] => (0, [some v])
  | none :: rest => (0, some v :: rest)
  | some w :: rest =>
    let r := slabInsertAux rest v
    (r.1 + 1, some w :: r.2)

/-- Outcome of `methods::parse_jsonrpc_client_to_server` restricted to the
method calls that `insert_client_json_rpc_request` distinguishes.
Modelled from the spec: the parser classifies the request text into a
method call; methods not singled out by the source fall into `other`. -/
inductive MethodCall where
  | system_name
  | system_version
  | sudo_unstable_version
  | sudo_unstable_p2pDiscover
  | state_subscribeRuntimeVersion
  | state_subscribeStorage
  | chain_subscribeAllHeads
  | chain_subscribeFinalizedHeads
  | chain_subscribeNewHeads
  | chainHead_unstable_follow
  | author_submitAndWatchExtrinsic
  | transaction_unstable_submitAndWatch
  | other (method : String) (params_json : Option String)
  deriving DecidableEq, Repr

/-- A client-to-proxy JSON-RPC message, represented by its parse outcome.
Modelled from the spec: `methods::parse_jsonrpc_client_to_server` (not in
the sources under verification) returns either the request id and method,
or one of three errors. -/
inductive ClientMessage where
  | request (id_json : String) (method : MethodCall)
  | jsonRpcParseError
  | methodError (request_id : String)
  | unknownNotificationMethod (function : String)
  deriving DecidableEq, Repr

/-- A server-to-proxy JSON-RPC message, represented by its parse outcome.
Modelled from the spec: `parse::parse_response` (not in the sources under
verification) yields `ParseError` (a response whose error code is -32700),
`Success`, or `Error`; when it fails, `methods::parse_notification` yields
a subscription notification or fails in turn. -/
inductive ServerMessage where
  | parseFailureResponse
  | success (id_json : String) (result_json : String)
  | error (id_json : String) (error_code : Int) (error_message : String)
  | subNotificationIn (method : String) (subscription : String) (params_json : Option String)
  | unparseable (raw : String)
  deriving DecidableEq, Repr

/-- A proxy-to-client JSON-RPC message sitting in a response queue.
Modelled from the spec: the serializers `to_json_response`,
`parse::build_success_response` and `to_json_request_object_parameters`
(not in the sources under verification) are bit-preserving except for the
field being substituted, so a serialized message is represented by its
fields. -/
inductive OutMessage where
  | jsonResponse (id_json : String) (body_json : String)
  | subNotificationOut (method : String) (subscription : String) (params_json : Option String)
  deriving DecidableEq, Repr

/-- The `QueuedRequest` struct of reverse_proxy.rs. -/
structure QueuedRequest where
  id_json : String
  method : String
  parameters_json : Option String
  is_legacy_api_server_specific : Bool
  deriving DecidableEq, Repr

/-- A proxy-to-server JSON-RPC request, result of `parse::build_request`.
Modelled from the spec: the serializer is represented by its fields. -/
structure ProxiedRequest where
  id_json : String
  method : String
  params_json : Option String
  deriving DecidableEq, Repr

/-- The `Client` struct of reverse_proxy.rs. The opaque `user_data : Option<TClient>`
only matters through its `Some`/`None` distinction (tombstoning) and is
modelled as `Option Unit`. -/
structure Client where
  num_unanswered_requests : Nat
  max_unanswered_parallel_requests : Nat
  num_legacy_api_subscriptions : Nat
  max_legacy_api_subscriptions : Nat
  num_chainhead_follow_subscriptions : Nat
  max_chainhead_follow_subscriptions : Nat
  num_transactions_subscriptions : Nat
  max_transactions_subscriptions : Nat
  server_agnostic_requests_queue : List QueuedRequest
  json_rpc_responses_queue : List OutMessage
  legacy_api_assigned_server : Option Nat
  user_data : Option Unit
  deriving DecidableEq, Repr

/-- The `Server` struct of reverse_proxy.rs (the opaque user data is dropped). -/
structure Server where
  is_blacklisted : Bool
  deriving DecidableEq, Repr

/-- The `ReverseProxy` struct of reverse_proxy.rs. `ClientId` and `ServerId` are slab
indices and are modelled as `Nat`; the maps and sets are modelled as
lists. -/
structure ReverseProxy where
  clients : List (Option Client)
  clients_with_server_agnostic_request_waiting : List Nat
  client_server_specific_requests_queued : List ((Nat × Nat) × List QueuedRequest)
  clients_with_server_specific_request_queued : List (Nat × Nat)
  servers : List (Option Server)
  requests_in_progress : List ((Nat × String) × (Nat × QueuedRequest))
  active_subscriptions : List ((Nat × String) × (Nat × String))
  active_subscriptions_by_client : List ((Nat × String) × (Nat × String))
  deriving DecidableEq, Repr

/-- The stream of random draws consumed by the operations (model of the
`randomness: ChaCha20Rng` field): naturals feed `gen_range`, strings feed
the hex-encoded 48-byte request-id generation. -/
structure Rng where
  nat_draws : List Nat
  id_draws : List String
  deriving DecidableEq, Repr

def Rng.peekNat (r : Rng) : Nat := r.nat_draws.headD 0

def Rng.dropNat (r : Rng) : Rng := { r with nat_draws := r.nat_draws.tail }

def Rng.peekId (r : Rng) : String := r.id_draws.headD ""

def Rng.dropId (r : Rng) : Rng := { r with id_draws := r.id_draws.tail }

/-- The `ClientConfig` struct of reverse_proxy.rs (without the opaque user data). -/
structure ClientConfig where
  max_unanswered_parallel_requests : Nat
  max_legacy_api_subscriptions : Nat
  max_chainhead_follow_subscriptions : Nat
  max_transactions_subscriptions : Nat
  deriving DecidableEq, Repr

/-- Model of `ReverseProxy::new`. The original constructor initializes every table
empty (its literal field list is out of sync with the struct, an artifact
of the unfinished file; the intent of an all-empty state is unambiguous). -/
def initialProxy : ReverseProxy where
  clients := []
  clients_with_server_agnostic_request_waiting := []
  client_server_specific_requests_queued := []
  clients_with_server_specific_request_queued := []
  servers := []
  requests_in_progress := []
  active_subscriptions := []
  active_subscriptions_by_client := []

/-- Replace the client stored at slot `cid`. -/
def setClient (st : ReverseProxy) (cid : Nat) (c : Client) : ReverseProxy :=
  { st with clients := slabSet st.clients cid (some c) }

/-- Model of `ReverseProxy::insert_client`. -/
def insert_client (st : ReverseProxy) (config : ClientConfig) : Nat × ReverseProxy :=
  let fresh : Client :=
    { num_unanswered_requests := 0
      max_unanswered_parallel_requests := config.max_unanswered_parallel_requests
      num_legacy_api_subscriptions := 0
      max_legacy_api_subscriptions := config.max_legacy_api_subscriptions
      num_chainhead_follow_subscriptions := 0
      max_chainhead_follow_subscriptions := max config.max_chainhead_follow_subscriptions 2
      num_transactions_subscriptions := 0
      max_transactions_subscriptions := config.max_transactions_subscriptions
      server_agnostic_requests_queue := []
      json_rpc_responses_queue := []
      legacy_api_assigned_server := none
      user_data := some () }
  let r := slabInsertAux st.clients fresh
  (r.1, { st with clients := r.2 })

/-- Model of `ReverseProxy::try_remove_client`. -/
def try_remove_client (st : ReverseProxy) (cid : Nat) : ReverseProxy :=
  match slabGet st.clients cid with
  | none => st
  | some client =>
    if client.user_data.isSome then st
    else if client.num_unanswered_requests ≠ 0 then st
    else if (filterKeep (fun e : (Nat × String) × (Nat × String) => e.1.1 = cid)
        st.active_subscriptions_by_client) ≠ [] then st
    else { st with clients := slabSet st.clients cid none }

/-- Model of `ReverseProxy::remove_client`. The loop over the client's active
subscriptions has an empty body in the source (its content is a `TODO`),
so it is a no-op here. -/
def remove_client (st : ReverseProxy) (cid : Nat) : Option ReverseProxy :=
  match slabGet st.clients cid with
  | none => none
  | some client =>
    match client.user_data with
    | none => none
    | some _ =>
      let st1 := setClient st cid
        { client with user_data := none, server_agnostic_requests_queue := [] }
      let st2 := { st1 with
        clients_with_server_agnostic_request_waiting :=
          removeAll cid st1.clients_with_server_agnostic_request_waiting }
      some (try_remove_client st2 cid)

/-- Outcome of `insert_client_json_rpc_request` (`Result<(), ()>` in the
source: `accepted` is `Ok(())`, `quotaExceeded` is `Err(())`). -/
inductive InsertRequestOutcome where
  | accepted
  | quotaExceeded
  deriving DecidableEq, Repr

/-- Model of `ReverseProxy::insert_client_json_rpc_request`. The `todo!()` arms of
the source (legacy/chainHead/transaction subscription quota exceeded, and
the three request-parse-error cases) are panics, modelled as `none`. -/
def insert_client_json_rpc_request (st : ReverseProxy) (cid : Nat)
    (request : ClientMessage) : Option (InsertRequestOutcome × ReverseProxy) :=
  match slabGet st.clients cid with
  | none => none
  | some client =>
    if client.user_data.isNone then none
    else if client.num_unanswered_requests ≥ client.max_unanswered_parallel_requests then
      some (.quotaExceeded, st)
    else
      let client1 := { client with
        num_unanswered_requests := client.num_unanswered_requests + 1 }
      match request with
      | .request id_json m =>
        match m with
        | .system_name =>
          some (.accepted, setClient st cid { client1 with
            json_rpc_responses_queue := client1.json_rpc_responses_queue ++
              [.jsonResponse id_json "\"smoldot-json-rpc-proxy\""] })
        | .system_version =>
          some (.accepted, setClient st cid { client1 with
            json_rpc_responses_queue := client1.json_rpc_responses_queue ++
              [.jsonResponse id_json "\"1.0\""] })
        | .sudo_unstable_version =>
          some (.accepted, setClient st cid { client1 with
            json_rpc_responses_queue := client1.json_rpc_responses_queue ++
              [.jsonResponse id_json "\"smoldot-json-rpc-proxy 1.0\""] })
        | .sudo_unstable_p2pDiscover =>
          some (.accepted, setClient st cid { client1 with
            json_rpc_responses_queue := client1.json_rpc_responses_queue ++
              [.jsonResponse id_json "null"] })
        | .state_subscribeRuntimeVersion | .state_subscribeStorage
        | .chain_subscribeAllHeads | .chain_subscribeFinalizedHeads
        | .chain_subscribeNewHeads =>
          if client1.num_legacy_api_subscriptions ≥ client1.max_legacy_api_subscriptions
          then none
          else some (.accepted, setClient st cid { client1 with
            num_legacy_api_subscriptions := client1.num_legacy_api_subscriptions + 1 })
        | .chainHead_unstable_follow =>
          if client1.num_chainhead_follow_subscriptions ≥
              client1.max_chainhead_follow_subscriptions
          then none
          else some (.accepted, setClient st cid { client1 with
            num_chainhead_follow_subscriptions :=
              client1.num_chainhead_follow_subscriptions + 1 })
        | .author_submitAndWatchExtrinsic | .transaction_unstable_submitAndWatch =>
          if client1.num_transactions_subscriptions ≥
              client1.max_transactions_subscriptions
          then none
          else some (.accepted, setClient st cid { client1 with
            num_transactions_subscriptions :=
              client1.num_transactions_subscriptions + 1 })
        | .other _ _ => some (.accepted, setClient st cid client1)
      | .jsonRpcParseError => none
      | .methodError _ => none
      | .unknownNotificationMethod _ => none

/-- Model of `ReverseProxy::next_client_json_rpc_response`. The source pops the
front of the response queue; the decrement of `num_unanswered_requests`
announced by its own comment is absent (a `TODO` in the source). -/
def next_client_json_rpc_response (st : ReverseProxy) (cid : Nat) :
    Option (Option OutMessage × ReverseProxy) :=
  match slabGet st.clients cid with
  | none => none
  | some client =>
    if client.user_data.isNone then none
    else
      match client.json_rpc_responses_queue with
      | [] => some (none, st)
      | msg :: rest =>
        some (some msg, setClient st cid { client with json_rpc_responses_queue := rest })

/-- Model of `ReverseProxy::insert_server`. -/
def insert_server (st : ReverseProxy) : Nat × ReverseProxy :=
  let r := slabInsertAux st.servers { is_blacklisted := false }
  (r.1, { st with servers := r.2 })

/-- The requests cancelled by `blacklist_server`: the in-flight requests of
the server (in table order) chained with the per-(client, server) queued
requests (in index order, each queue front to back). -/
def blacklistRequestsToCancel (st : ReverseProxy) (sid : Nat) :
    List (Nat × QueuedRequest) :=
  let requests_dispatched :=
    (filterKeep (fun e : (Nat × String) × (Nat × QueuedRequest) => e.1.1 = sid)
      st.requests_in_progress).map (fun e => e.2)
  let clients_with_specific :=
    (filterKeep (fun e : Nat × Nat => e.1 = sid)
      st.clients_with_server_specific_request_queued).map (fun e => e.2)
  let requests_queued := clients_with_specific.flatMap (fun c =>
    ((alistLookup (c, sid) st.client_server_specific_requests_queued).getD []).map
      (fun r => (c, r)))
  requests_dispatched ++ requests_queued

/-- One step of the cancellation loop of `blacklist_server`: a request of a
tombstoned client is dropped (decrementing its unanswered counter, possibly
reclaiming the client), any other request returns to the head of its
client's server-agnostic queue. -/
def blacklistCancelStep (acc : ReverseProxy) (cr : Nat × QueuedRequest) : ReverseProxy :=
  match slabGet acc.clients cr.1 with
  | none => acc
  | some client =>
    if client.user_data.isNone then
      try_remove_client (setClient acc cr.1 { client with
        num_unanswered_requests := client.num_unanswered_requests - 1 }) cr.1
    else
      setClient acc cr.1 { client with
        server_agnostic_requests_queue := cr.2 :: client.server_agnostic_requests_queue }

/-- Model of `ReverseProxy::blacklist_server`. The loops over the server's active
subscriptions have empty bodies in the source (their content is a `TODO`),
so only the extraction from `active_subscriptions` happens; the client set
`clients_with_server_agnostic_request_waiting` is not updated by the
re-injection, exactly as in the source. -/
def blacklist_server (st : ReverseProxy) (sid : Nat) : Option ReverseProxy :=
  match slabGet st.servers sid with
  | none => none
  | some server =>
    if server.is_blacklisted then some st
    else
      let st1 := { st with servers := slabSet st.servers sid (some { is_blacklisted := true }) }
      let st2 := { st1 with
        active_subscriptions :=
          filterKeep (fun e : (Nat × String) × (Nat × String) => e.1.1 ≠ sid)
            st1.active_subscriptions }
      let cancelled := blacklistRequestsToCancel st2 sid
      let st3 := { st2 with
        requests_in_progress :=
          filterKeep (fun e : (Nat × String) × (Nat × QueuedRequest) => e.1.1 ≠ sid)
            st2.requests_in_progress
        clients_with_server_specific_request_queued :=
          filterKeep (fun e : Nat × Nat => e.1 ≠ sid)
            st2.clients_with_server_specific_request_queued
        client_server_specific_requests_queued :=
          filterKeep (fun e : (Nat × Nat) × List QueuedRequest => e.1.2 ≠ sid)
            st2.client_server_specific_requests_queued }
      some (cancelled.foldl blacklistCancelStep st3)

/-- Model of `ReverseProxy::remove_server`: blacklist, then free the slab slot. -/
def remove_server (st : ReverseProxy) (sid : Nat) : Option ReverseProxy :=
  (blacklist_server st sid).map (fun st1 =>
    { st1 with servers := slabSet st1.servers sid none })

/-- The clients with a request queued specifically for `sid`, in the order
of the `BTreeSet<(ServerId, ClientId)>` range iteration. -/
def serverSpecificClients (st : ReverseProxy) (sid : Nat) : List Nat :=
  (filterKeep (fun e : Nat × Nat => e.1 = sid)
    st.clients_with_server_specific_request_queued).map (fun e => e.2)

/-- The `server_specific_weight` of `next_proxied_json_rpc_request`:
`1 + (clients.len().saturating_sub(1) / servers.len())`. -/
def serverSpecificWeight (st : ReverseProxy) : Nat :=
  1 + (slabLen st.clients - 1) / slabLen st.servers

/-- The client-selection step of `next_proxied_json_rpc_request`: sample an
index in `0..total_weight` (panic when the range is empty, modelled as
`none`) and resolve it to a client, with `false` for the server-agnostic
list and `true` for the weighted server-specific list. -/
def selectClient (st : ReverseProxy) (sid : Nat) (draw : Nat) : Option (Nat × Bool) :=
  let specific := serverSpecificClients st sid
  let w := serverSpecificWeight st
  let agn := st.clients_with_server_agnostic_request_waiting
  let total := agn.length + w * specific.length
  if total = 0 then none
  else
    let index := draw % total
    if index < agn.length then (agn.get? index).map (fun c => (c, false))
    else (specific.get? ((index - agn.length) / w)).map (fun c => (c, true))

/-- Mint the new request id, rebuild the request around it, and record the
in-flight entry (the tail of the loop body of
`next_proxied_json_rpc_request`). -/
def dispatchRequest (st : ReverseProxy) (sid : Nat) (cid : Nat) (req : QueuedRequest)
    (new_id : String) : ProxiedRequest × ReverseProxy :=
  (⟨new_id, req.method, req.parameters_json⟩,
    { st with requests_in_progress :=
        ((sid, new_id), (cid, req)) :: st.requests_in_progress })

/-- Outcome of one iteration of the loop of
`next_proxied_json_rpc_request`: a request dispatched to the server, a
`continue` restarting client selection, or a panic. -/
inductive IterOutcome where
  | dispatched (request : ProxiedRequest) (st : ReverseProxy)
  | again (st : ReverseProxy)
  | panicked
  deriving DecidableEq, Repr

/-- One iteration of the loop of `next_proxied_json_rpc_request`: pick a
client, pop the front of the chosen queue, re-route a legacy-sticky
request whose client is attributed to a different server (`continue`),
otherwise dispatch. -/
def nextProxiedIteration (st : ReverseProxy) (sid : Nat) (draw : Nat)
    (new_id : String) : IterOutcome :=
  match selectClient st sid draw with
  | none => .panicked
  | some (cid, true) =>
    match alistLookup (cid, sid) st.client_server_specific_requests_queued with
    | none => .panicked
    | some [] => .panicked
    | some (req :: rest) =>
      let st1 :=
        if rest.isEmpty then
          { st with
            client_server_specific_requests_queued :=
              alistEraseAll (cid, sid) st.client_server_specific_requests_queued
            clients_with_server_specific_request_queued :=
              removeAll (sid, cid) st.clients_with_server_specific_request_queued }
        else
          { st with
            client_server_specific_requests_queued :=
              alistUpdate (cid, sid) rest st.client_server_specific_requests_queued }
      let r := dispatchRequest st1 sid cid req new_id
      .dispatched r.1 r.2
  | some (cid, false) =>
    match slabGet st.clients cid with
    | none => .panicked
    | some client =>
      match client.server_agnostic_requests_queue with
      | [] => .panicked
      | req :: rest =>
        let popped := { client with server_agnostic_requests_queue := rest }
        let st1 := setClient st cid popped
        let st2 :=
          if rest.isEmpty then
            { st1 with
              clients_with_server_agnostic_request_waiting :=
                removeAll cid st1.clients_with_server_agnostic_request_waiting }
          else st1
        if req.is_legacy_api_server_specific then
          match client.legacy_api_assigned_server with
          | some other =>
            if other ≠ sid then
              let st3 := { st2 with
                client_server_specific_requests_queued :=
                  alistUpdate (cid, other)
                    (req :: ((alistLookup (cid, other)
                      st2.client_server_specific_requests_queued).getD []))
                    st2.client_server_specific_requests_queued
                clients_with_server_specific_request_queued :=
                  if (alistLookup (cid, other)
                      st2.client_server_specific_requests_queued).isNone then
                    sortedInsertPair (other, cid)
                      st2.clients_with_server_specific_request_queued
                  else st2.clients_with_server_specific_request_queued }
              .again st3
            else
              let r := dispatchRequest st2 sid cid req new_id
              .dispatched r.1 r.2
          | none =>
            let st3 := setClient st2 cid
              { popped with legacy_api_assigned_server := some sid }
            let r := dispatchRequest st3 sid cid req new_id
            .dispatched r.1 r.2
        else
          let r := dispatchRequest st2 sid cid req new_id
          .dispatched r.1 r.2

/-- Total number of requests the loop of `next_proxied_json_rpc_request`
can still touch for `sid`: each `continue` strictly decreases it, so it
bounds the number of iterations. -/
def pendingForServer (st : ReverseProxy) (sid : Nat) : Nat :=
  (st.clients.map (fun oc => match oc with
    | none => 0
    | some c => c.server_agnostic_requests_queue.length)).sum
  + ((filterKeep (fun e : (Nat × Nat) × List QueuedRequest => e.1.2 = sid)
      st.client_server_specific_requests_queued).map (fun e => e.2.length)).sum

/-- The loop of `next_proxied_json_rpc_request`, driven by fuel (the fuel
passed by the public entry point strictly exceeds the number of possible
iterations, so exhaustion is unreachable and conflated with panic). -/
def nextProxiedLoop : Nat → ReverseProxy → Nat → Rng →
    Option (Option ProxiedRequest × ReverseProxy × Rng)
  | 0, _, _, _ => none
  | fuel + 1, st, sid, rng =>
    match nextProxiedIteration st sid rng.peekNat rng.peekId with
    | .panicked => none
    | .dispatched p st' => some (some p, st', rng.dropNat.dropId)
    | .again st' => nextProxiedLoop fuel st' sid rng.dropNat

/-- Model of `ReverseProxy::next_proxied_json_rpc_request`. -/
def next_proxied_json_rpc_request (st : ReverseProxy) (sid : Nat) (rng : Rng) :
    Option (Option ProxiedRequest × ReverseProxy × Rng) :=
  match slabGet st.servers sid with
  | none => none
  | some server =>
    if server.is_blacklisted then some (none, st, rng)
    else nextProxiedLoop (pendingForServer st sid + 1) st sid rng

/-- The `InsertProxiedJsonRpcResponseOutcome` enum of reverse_proxy.rs (the static
blacklisting-reason string is dropped). -/
inductive InsertResponseOutcome where
  | ok (client : Nat)
  | discarded
  | blacklisted
  deriving DecidableEq, Repr

/-- Model of `ReverseProxy::insert_proxied_json_rpc_response`. The arm for an error
response whose code is not -32603 is unfinished in the source (it builds a
response, discards it, and produces no outcome: the arm does not
type-check), modelled as a panic. The subscription bookkeeping on
subscribe/unsubscribe responses is a `TODO` in the source and therefore
absent here. -/
def insert_proxied_json_rpc_response (st : ReverseProxy) (sid : Nat)
    (response : ServerMessage) : Option (InsertResponseOutcome × ReverseProxy) :=
  match response with
  | .parseFailureResponse =>
    (blacklist_server st sid).map (fun st' => (.blacklisted, st'))
  | .error _ code _ =>
    if code = -32603 then
      (blacklist_server st sid).map (fun st' => (.blacklisted, st'))
    else none
  | .success id_json result_json =>
    match alistLookup (sid, id_json) st.requests_in_progress with
    | none => (blacklist_server st sid).map (fun st' => (.blacklisted, st'))
    | some (cid, request_info) =>
      let st1 := { st with
        requests_in_progress := alistEraseAll (sid, id_json) st.requests_in_progress }
      match slabGet st1.clients cid with
      | none => none
      | some client =>
        if client.user_data.isNone then
          some (.discarded, try_remove_client st1 cid)
        else
          some (.ok cid, setClient st1 cid { client with
            json_rpc_responses_queue := client.json_rpc_responses_queue ++
              [.jsonResponse request_info.id_json result_json] })
  | .subNotificationIn method subscription params_json =>
    match alistLookup (sid, subscription) st.active_subscriptions with
    | none => (blacklist_server st sid).map (fun st' => (.blacklisted, st'))
    | some (cid, client_sub_id) =>
      match slabGet st.clients cid with
      | none => none
      | some client =>
        if client.user_data.isNone then some (.discarded, st)
        else
          some (.ok cid, setClient st cid { client with
            json_rpc_responses_queue := client.json_rpc_responses_queue ++
              [.subNotificationOut method client_sub_id params_json] })
  | .unparseable _ =>
    (blacklist_server st sid).map (fun st' => (.blacklisted, st'))

/-! Basic lemmas about the list-backed containers. -/

theorem alistLookup_eraseAll {κ β : Type} [DecidableEq κ] (k : κ) (l : List (κ × β)) :
    alistLookup k (alistEraseAll k l) = none := by
  induction l with
  | nil => rfl
  | cons e rest ih =>
    by_cases h : e.1 = k <;> simp [alistEraseAll, h, alistLookup, ih]

theorem alistLookup_update_self {κ β : Type} [DecidableEq κ] (k : κ) (v : β)
    (l : List (κ × β)) : alistLookup k (alistUpdate k v l) = some v := by
  simp [alistUpdate, alistLookup]

theorem alistLookup_cons_self {κ β : Type} [DecidableEq κ] (k : κ) (v : β)
    (l : List (κ × β)) : alistLookup k ((k, v) :: l) = some v := by
  simp [alistLookup]

theorem alistLookup_nil {κ β : Type} [DecidableEq κ] (k : κ) :
    alistLookup k ([] : List (κ × β)) = none := rfl

theorem filterKeep_nil {α : Type} (p : α → Prop) [DecidablePred p] :
    filterKeep p [] = [] := rfl

theorem mem_of_mem_filterKeep {α : Type} {p : α → Prop} [DecidablePred p]
    {l : List α} {x : α} (hx : x ∈ filterKeep p l) : x ∈ l := by
  induction l with
  | nil => simp [filterKeep] at hx
  | cons y rest ih =>
    by_cases h : p y
    · simp only [filterKeep, if_pos h, List.mem_cons] at hx
      rcases hx with hx | hx
      · exact hx ▸ List.mem_cons_self y rest
      · exact List.mem_cons_of_mem y (ih hx)
    · simp only [filterKeep, if_neg h] at hx
      exact List.mem_cons_of_mem y (ih hx)

theorem get?_set_self {α : Type} (l : List α) (i : Nat) (v : α) (h : i < l.length) :
    (l.set i v).get? i = some v := by
  induction l generalizing i with
  | nil => simp at h
  | cons y rest ih =>
    cases i with
    | zero => rfl
    | succ j => exact ih j (by simpa using h)

theorem get?_set_other {α : Type} (l : List α) (i j : Nat) (v : α) (h : i ≠ j) :
    (l.set i v).get? j = l.get? j := by
  induction l generalizing i j with
  | nil => simp [List.set]
  | cons y rest ih =>
    cases i with
    | zero =>
      cases j with
      | zero => exact absurd rfl h
      | succ j' => rfl
    | succ i' =>
      cases j with
      | zero => rfl
      | succ j' => exact ih i' j' (fun hc => h (by rw [hc]))

theorem slabGet_set_self {α : Type} (l : List (Option α)) (i : Nat) (v : Option α)
    (h : i < l.length) : slabGet (slabSet l i v) i = v := by
  unfold slabGet slabSet
  rw [get?_set_self l i v h]
  rfl

theorem slabGet_set_other {α : Type} (l : List (Option α)) (i j : Nat) (v : Option α)
    (h : i ≠ j) : slabGet (slabSet l i v) j = slabGet l j := by
  unfold slabGet slabSet
  rw [get?_set_other l i j v h]

theorem lt_length_of_slabGet {α : Type} {l : List (Option α)} {i : Nat} {v : α}
    (h : slabGet l i = some v) : i < l.length := by
  simp only [slabGet, Option.join] at h
  rcases ho : l.get? i with _ | o
  · rw [ho] at h; simp at h
  · exact List.get?_eq_some.mp ho |>.choose

theorem mem_of_slabGet {α : Type} {l : List (Option α)} {i : Nat} {v : α}
    (h : slabGet l i = some v) : some v ∈ l := by
  simp only [slabGet] at h
  rcases ho : l.get? i with _ | o
  · rw [ho] at h; simp at h
  · rw [ho] at h
    simp only [Option.join] at h
    subst h
    exact List.get?_mem ho

theorem mem_of_mem_set {α : Type} {l : List α} {i : Nat} {v x : α}
    (hx : x ∈ l.set i v) : x ∈ l ∨ x = v := by
  induction l generalizing i with
  | nil => simp [List.set] at hx
  | cons y rest ih =>
    cases i with
    | zero =>
      rcases List.mem_cons.mp hx with hx | hx
      · exact Or.inr hx
      · exact Or.inl (List.mem_cons_of_mem y hx)
    | succ j =>
      rcases List.mem_cons.mp hx with hx | hx
      · exact Or.inl (hx ▸ List.mem_cons_self y rest)
      · rcases ih hx with h | h
        · exact Or.inl (List.mem_cons_of_mem y h)
        · exact Or.inr h

theorem mem_of_mem_slabInsertAux {α : Type} {l : List (Option α)} {v : α}
    {x : Option α} (hx : x ∈ (slabInsertAux l v).2) : x ∈ l ∨ x = some v := by
  induction l with
  | nil =>
    simp only [slabInsertAux] at hx
    rcases List.mem_cons.mp hx with hx | hx
    · exact Or.inr hx
    · simp at hx
  | cons y rest ih =>
    cases y with
    | none =>
      simp only [slabInsertAux] at hx
      rcases List.mem_cons.mp hx with hx | hx
      · exact Or.inr hx
      · exact Or.inl (List.mem_cons_of_mem _ hx)
    | some w =>
      simp only [slabInsertAux] at hx
      rcases List.mem_cons.mp hx with hx | hx
      · exact Or.inl (hx ▸ List.mem_cons_self _ rest)
      · rcases ih hx with h | h
        · exact Or.inl (List.mem_cons_of_mem _ h)
        · exact Or.inr h

/-! Structural lemmas about the operations. -/

theorem try_remove_client_servers (st : ReverseProxy) (cid : Nat) :
    (try_remove_client st cid).servers = st.servers := by
  unfold try_remove_client
  repeat' split
  all_goals rfl

theorem try_remove_client_queue (st : ReverseProxy) (cid j : Nat) (c' : Client)
    (h : slabGet (try_remove_client st cid).clients j = some c') :
    slabGet st.clients j = some c' := by
  unfold try_remove_client at h
  split at h
  · exact h
  · split at h
    · exact h
    · split at h
      · exact h
      · split at h
        · exact h
        · by_cases hij : cid = j
          · subst hij
            rw [show ({ st with clients := slabSet st.clients cid none } :
                ReverseProxy).clients = slabSet st.clients cid none from rfl,
              slabGet_set_self] at h
            · exact absurd h (by simp)
            · exact lt_length_of_slabGet (by assumption)
          · rwa [show ({ st with clients := slabSet st.clients cid none } :
                ReverseProxy).clients = slabSet st.clients cid none from rfl,
              slabGet_set_other _ _ _ _ hij] at h

theorem blacklistCancelStep_servers (acc : ReverseProxy) (cr : Nat × QueuedRequest) :
    (blacklistCancelStep acc cr).servers = acc.servers := by
  unfold blacklistCancelStep
  split
  · rfl
  · split
    · rw [try_remove_client_servers]
      rfl
    · rfl

theorem blacklistCancelStep_queue (acc : ReverseProxy) (cr : Nat × QueuedRequest)
    (j : Nat) (c' : Client)
    (h : slabGet (blacklistCancelStep acc cr).clients j = some c') :
    ∃ c, slabGet acc.clients j = some c ∧
      c'.json_rpc_responses_queue = c.json_rpc_responses_queue := by
  unfold blacklistCancelStep at h
  split at h
  · exact ⟨c', h, rfl⟩
  · rename_i client hcl
    split at h
    · have h2 := try_remove_client_queue _ _ _ _ h
      by_cases hij : cr.1 = j
      · subst hij
        rw [show (setClient acc cr.1 _).clients =
            slabSet acc.clients cr.1 (some { client with
              num_unanswered_requests := client.num_unanswered_requests - 1 }) from rfl,
          slabGet_set_self _ _ _ (lt_length_of_slabGet hcl)] at h2
        obtain rfl : { client with
            num_unanswered_requests := client.num_unanswered_requests - 1 } = c' := by
          injection h2
        exact ⟨client, hcl, rfl⟩
      · rw [show (setClient acc cr.1 _).clients =
            slabSet acc.clients cr.1 _ from rfl,
          slabGet_set_other _ _ _ _ hij] at h2
        exact ⟨c', h2, rfl⟩
    · by_cases hij : cr.1 = j
      · subst hij
        rw [show (setClient acc cr.1 _).clients =
            slabSet acc.clients cr.1 (some { client with
              server_agnostic_requests_queue :=
                cr.2 :: client.server_agnostic_requests_queue }) from rfl,
          slabGet_set_self _ _ _ (lt_length_of_slabGet hcl)] at h
        obtain rfl : { client with
            server_agnostic_requests_queue :=
              cr.2 :: client.server_agnostic_requests_queue } = c' := by
          injection h
        exact ⟨client, hcl, rfl⟩
      · rw [show (setClient acc cr.1 _).clients =
            slabSet acc.clients cr.1 _ from rfl,
          slabGet_set_other _ _ _ _ hij] at h
        exact ⟨c', h, rfl⟩

theorem foldl_cancel_servers (l : List (Nat × QueuedRequest)) (acc : ReverseProxy) :
    (l.foldl blacklistCancelStep acc).servers = acc.servers := by
  induction l generalizing acc with
  | nil => rfl
  | cons x rest ih => rw [List.foldl_cons, ih, blacklistCancelStep_servers]

theorem foldl_cancel_queue (l : List (Nat × QueuedRequest)) (acc : ReverseProxy)
    (j : Nat) (c' : Client)
    (h : slabGet (l.foldl blacklistCancelStep acc).clients j = some c') :
    ∃ c, slabGet acc.clients j = some c ∧
      c'.json_rpc_responses_queue = c.json_rpc_responses_queue := by
  induction l generalizing acc with
  | nil => exact ⟨c', h, rfl⟩
  | cons x rest ih =>
    rw [List.foldl_cons] at h
    obtain ⟨c1, h1, hq1⟩ := ih _ h
    obtain ⟨c0, h0, hq0⟩ := blacklistCancelStep_queue _ _ _ _ h1
    exact ⟨c0, h0, hq1.trans hq0⟩

theorem blacklist_server_spec (st : ReverseProxy) (sid : Nat) (srv : Server)
    (hs : slabGet st.servers sid = some srv) :
    ∃ st', blacklist_server st sid = some st' ∧
      slabGet st'.servers sid = some { is_blacklisted := true } ∧
      ∀ cid c', slabGet st'.clients cid = some c' →
        ∃ c, slabGet st.clients cid = some c ∧
          c'.json_rpc_responses_queue = c.json_rpc_responses_queue := by
  simp only [blacklist_server, hs]
  by_cases hb : srv.is_blacklisted
  · rw [if_pos hb]
    refine ⟨st, rfl, ?_, fun cid c' h => ⟨c', h, rfl⟩⟩
    cases srv
    cases hb
    exact hs
  · rw [if_neg hb]
    refine ⟨_, rfl, ?_, ?_⟩
    · rw [foldl_cancel_servers]
      exact slabGet_set_self _ _ _ (lt_length_of_slabGet hs)
    · intro cid c' h
      obtain ⟨c, hc, hqeq⟩ := foldl_cancel_queue _ _ _ _ h
      exact ⟨c, hc, hqeq⟩

theorem insert_request_quota_reject (st : ReverseProxy) (cid : Nat) (client : Client)
    (hcl : slabGet st.clients cid = some client)
    (hud : client.user_data.isSome = true)
    (hq : client.max_unanswered_parallel_requests ≤ client.num_unanswered_requests)
    (request : ClientMessage) :
    insert_client_json_rpc_request st cid request = some (.quotaExceeded, st) := by
  have hn : client.user_data.isNone = false := by
    cases h : client.user_data
    · rw [h] at hud; simp at hud
    · rfl
  simp only [insert_client_json_rpc_request, hcl, hn, Bool.false_eq_true, if_false]
  rw [if_pos hq]

/-! Concrete states used by the evaluation theorems. -/

/-- A freshly inserted client with small quotas. -/
def sampleClient : Client :=
  { num_unanswered_requests := 0
    max_unanswered_parallel_requests := 2
    num_legacy_api_subscriptions := 0
    max_legacy_api_subscriptions := 5
    num_chainhead_follow_subscriptions := 0
    max_chainhead_follow_subscriptions := 2
    num_transactions_subscriptions := 0
    max_transactions_subscriptions := 5
    server_agnostic_requests_queue := []
    json_rpc_responses_queue := []
    legacy_api_assigned_server := none
    user_data := some () }

/-- One idle client, one idle non-blacklisted server, nothing queued. -/
def singleClientProxy : ReverseProxy :=
  { initialProxy with
    clients := [some sampleClient]
    servers := [some { is_blacklisted := false }] }

/-- The state `singleClientProxy` after accepting one request for a forwarded method. -/
def singleClientProxyAfter : ReverseProxy :=
  { singleClientProxy with
    clients := [some { sampleClient with num_unanswered_requests := 1 }] }

/-- A client with one pending response to a request still counted as
unanswered. -/
def popClient : Client :=
  { sampleClient with
    num_unanswered_requests := 1
    json_rpc_responses_queue := [.jsonResponse "7" "\"x\""] }

def popProxy : ReverseProxy :=
  { initialProxy with
    clients := [some popClient]
    servers := [some { is_blacklisted := false }] }

def popProxyAfter : ReverseProxy :=
  { popProxy with
    clients := [some { popClient with json_rpc_responses_queue := [] }] }

/-- A client sitting at its unanswered-requests quota. -/
def quotaClient : Client := { sampleClient with num_unanswered_requests := 2 }

def quotaProxy : ReverseProxy :=
  { initialProxy with
    clients := [some quotaClient]
    servers := [some { is_blacklisted := false }] }

/-- An in-flight subscribe request, already dispatched to server 0 under
the rewritten id "aa". -/
def subscribeRequest : QueuedRequest :=
  { id_json := "5"
    method := "chain_subscribeNewHeads"
    parameters_json := none
    is_legacy_api_server_specific := true }

/-- The client `sampleClient` with one request in flight. -/
def busyClient : Client := { sampleClient with num_unanswered_requests := 1 }

def subscribeProxy : ReverseProxy :=
  { initialProxy with
    clients := [some busyClient]
    servers := [some { is_blacklisted := false }]
    requests_in_progress := [((0, "aa"), (0, subscribeRequest))] }

def subscribeProxyAfter : ReverseProxy :=
  { initialProxy with
    clients := [some { busyClient with
      json_rpc_responses_queue := [.jsonResponse "5" "\"0xsub\""] }]
    servers := [some { is_blacklisted := false }] }

/-! Claim theorems. -/

/-- C1: the claim states that every `Ok`-returning call to
`insert_client_json_rpc_request` enqueues either exactly one response or
exactly one `QueuedRequest`. The code violates this: for a request using a
method that must be forwarded to a server (here `chain_getBlock`), the
call returns `Ok` after only incrementing `num_unanswered_requests`; no
response is enqueued and no `QueuedRequest` is put in any queue. -/
theorem accepted_request_neither_answered_nor_queued :
    insert_client_json_rpc_request singleClientProxy 0
        (.request "1" (.other "chain_getBlock" none)) =
      some (.accepted, singleClientProxyAfter) ∧
    (∃ c, slabGet singleClientProxyAfter.clients 0 = some c ∧
      c.json_rpc_responses_queue = [] ∧
      c.server_agnostic_requests_queue = [] ∧
      c.num_unanswered_requests = 1) ∧
    singleClientProxyAfter.clients_with_server_agnostic_request_waiting = [] ∧
    singleClientProxyAfter.client_server_specific_requests_queued = [] ∧
    singleClientProxyAfter.requests_in_progress = [] :=
  ⟨rfl, ⟨_, rfl, rfl, rfl, rfl⟩, rfl, rfl, rfl⟩

/-- C3: the claim states that popping a terminal response decrements
`num_unanswered_requests` (and subscription counters where relevant). The
code pops the front of the response queue but performs no decrement at all
(the decrement is a `TODO` comment in the source): after popping the
response to an in-flight request, the counter still reads 1. -/
theorem response_pop_without_decrement :
    next_client_json_rpc_response popProxy 0 =
      some (some (.jsonResponse "7" "\"x\""), popProxyAfter) ∧
    (∃ c, slabGet popProxyAfter.clients 0 = some c ∧
      c.num_unanswered_requests = 1 ∧ c.json_rpc_responses_queue = []) ∧
    next_client_json_rpc_response popProxyAfter 0 = some (none, popProxyAfter) :=
  ⟨rfl, ⟨_, rfl, rfl, rfl⟩, rfl⟩

/-- C5: when a client's `num_unanswered_requests` has reached
`max_unanswered_parallel_requests`, `insert_client_json_rpc_request`
returns the typed quota rejection (`Err(())`) and the state is returned
unchanged (snapshot equality), for every request text. -/
theorem quota_exceeded_rejects_and_preserves_state (st : ReverseProxy) (cid : Nat)
    (client : Client) (hcl : slabGet st.clients cid = some client)
    (hud : client.user_data.isSome = true)
    (hq : client.max_unanswered_parallel_requests ≤ client.num_unanswered_requests)
    (request : ClientMessage) :
    insert_client_json_rpc_request st cid request = some (.quotaExceeded, st) :=
  insert_request_quota_reject st cid client hcl hud hq request

/-- Witness for C5: a client at quota 2/2 has its request rejected with
the state unchanged. -/
theorem quota_exceeded_rejects_and_preserves_state_witness :
    insert_client_json_rpc_request quotaProxy 0
        (.request "3" (.other "state_getMetadata" none)) =
      some (.quotaExceeded, quotaProxy) :=
  quota_exceeded_rejects_and_preserves_state quotaProxy 0 quotaClient rfl rfl
    (by decide) (.request "3" (.other "state_getMetadata" none))

/-- C10: the quota check happens before the request text is parsed: under
a reached quota the outcome does not depend on the request text at all
(first conjunct), and in particular malformed JSON and the always-local
`system_name` are rejected with the typed error and with no response
enqueued (the state, response queue included, is returned unchanged). -/
theorem quota_rejection_precedes_parsing (st : ReverseProxy) (cid : Nat)
    (client : Client) (hcl : slabGet st.clients cid = some client)
    (hud : client.user_data.isSome = true)
    (hq : client.max_unanswered_parallel_requests ≤ client.num_unanswered_requests) :
    (∀ r1 r2 : ClientMessage,
      insert_client_json_rpc_request st cid r1 = insert_client_json_rpc_request st cid r2) ∧
    insert_client_json_rpc_request st cid .jsonRpcParseError =
      some (.quotaExceeded, st) ∧
    insert_client_json_rpc_request st cid (.request "1" .system_name) =
      some (.quotaExceeded, st) := by
  refine ⟨fun r1 r2 => ?_, ?_, ?_⟩
  · rw [insert_request_quota_reject st cid client hcl hud hq r1,
      insert_request_quota_reject st cid client hcl hud hq r2]
  · exact insert_request_quota_reject st cid client hcl hud hq _
  · exact insert_request_quota_reject st cid client hcl hud hq _

/-- Witness for C10. -/
theorem quota_rejection_precedes_parsing_witness :
    (∀ r1 r2 : ClientMessage,
      insert_client_json_rpc_request quotaProxy 0 r1 =
        insert_client_json_rpc_request quotaProxy 0 r2) ∧
    insert_client_json_rpc_request quotaProxy 0 .jsonRpcParseError =
      some (.quotaExceeded, quotaProxy) ∧
    insert_client_json_rpc_request quotaProxy 0 (.request "1" .system_name) =
      some (.quotaExceeded, quotaProxy) :=
  quota_rejection_precedes_parsing quotaProxy 0 quotaClient rfl rfl (by decide)

/-- C6: the claim states that a successful response to an in-flight
subscribe request allocates a fresh client-side subscription id and
records both directions of the subscription mapping. The code does
neither (the bookkeeping is a `TODO` comment in the source): after the
successful response to a `chain_subscribeNewHeads` request both
subscription tables are still empty, and a subsequent notification citing
the server's subscription id blacklists the server instead of being
delivered. -/
theorem subscribe_success_records_no_mapping :
    insert_proxied_json_rpc_response subscribeProxy 0 (.success "aa" "\"0xsub\"") =
      some (.ok 0, subscribeProxyAfter) ∧
    subscribeProxyAfter.active_subscriptions = [] ∧
    subscribeProxyAfter.active_subscriptions_by_client = [] ∧
    (insert_proxied_json_rpc_response subscribeProxyAfter 0
        (.subNotificationIn "chain_newHead" "0xsub" none)).map Prod.fst =
      some .blacklisted :=
  ⟨rfl, rfl, rfl, rfl⟩

/-- C7: the claim (and the doc comment of the source) states that
`next_proxied_json_rpc_request` returns `None` when no request is waiting
that the polled server could serve. The code instead reaches
`gen_range(0..0)`, which panics on the empty range: with a non-blacklisted
server and every queue empty the call panics (`none` in this model)
instead of returning `None` (`some (none, ..)`). -/
theorem next_proxied_on_empty_queues_panics :
    next_proxied_json_rpc_request singleClientProxy 0 ⟨[0], ["aa"]⟩ = none ∧
    (∃ srv, slabGet singleClientProxy.servers 0 = some srv ∧
      srv.is_blacklisted = false) ∧
    singleClientProxy.clients_with_server_agnostic_request_waiting = [] ∧
    singleClientProxy.client_server_specific_requests_queued = [] :=
  ⟨rfl, ⟨_, rfl, rfl⟩, rfl, rfl⟩

/-- C2: a success response whose rewritten id matches an in-flight entry
removes that entry and appends to the owning client's response queue a
response whose id is byte-identical to the stored client request's
original id (`req.id_json`); and dispatching stores the client's
`QueuedRequest` in the in-flight table unchanged, so that stored id is the
id of the request that produced the response. -/
theorem response_id_round_trip (st : ReverseProxy) (sid : Nat)
    (id_json result_json : String) (cid : Nat) (req : QueuedRequest) (client : Client)
    (hin : alistLookup (sid, id_json) st.requests_in_progress = some (cid, req))
    (hcl : slabGet st.clients cid = some client)
    (hud : client.user_data.isSome = true) :
    (∃ st', insert_proxied_json_rpc_response st sid (.success id_json result_json) =
        some (.ok cid, st') ∧
      alistLookup (sid, id_json) st'.requests_in_progress = none ∧
      ∃ client', slabGet st'.clients cid = some client' ∧
        client'.json_rpc_responses_queue =
          client.json_rpc_responses_queue ++ [.jsonResponse req.id_json result_json]) ∧
    (∀ (st0 : ReverseProxy) (c0 : Nat) (r : QueuedRequest) (nid : String),
      alistLookup (sid, nid) (dispatchRequest st0 sid c0 r nid).2.requests_in_progress =
        some (c0, r)) := by
  have hn : client.user_data.isNone = false := by
    cases h : client.user_data
    · rw [h] at hud; simp at hud
    · rfl
  constructor
  · simp only [insert_proxied_json_rpc_response, hin]
    have hcl1 : slabGet ({ st with requests_in_progress := alistEraseAll (sid, id_json) st.requests_in_progress } : ReverseProxy).clients cid = some client := hcl
    simp only [hcl1, hn, Bool.false_eq_true, if_false]
    refine ⟨_, rfl, ?_, ?_⟩
    · exact alistLookup_eraseAll _ _
    · refine ⟨{ client with json_rpc_responses_queue := client.json_rpc_responses_queue ++ [.jsonResponse req.id_json result_json] }, ?_, rfl⟩
      exact slabGet_set_self _ _ _ (lt_length_of_slabGet hcl)
  · intro st0 c0 r nid
    exact alistLookup_cons_self _ _ _

/-- Witness for C2: the concrete subscribe state round-trips the id "5". -/
theorem response_id_round_trip_witness :
    (∃ st', insert_proxied_json_rpc_response subscribeProxy 0 (.success "aa" "\"0xsub\"") =
        some (.ok 0, st') ∧
      alistLookup (0, "aa") st'.requests_in_progress = none ∧
      ∃ client', slabGet st'.clients 0 = some client' ∧
        client'.json_rpc_responses_queue =
          busyClient.json_rpc_responses_queue ++
            [.jsonResponse subscribeRequest.id_json "\"0xsub\""]) ∧
    (∀ (st0 : ReverseProxy) (c0 : Nat) (r : QueuedRequest) (nid : String),
      alistLookup (0, nid) (dispatchRequest st0 0 c0 r nid).2.requests_in_progress =
        some (c0, r)) :=
  response_id_round_trip subscribeProxy 0 "aa" "\"0xsub\"" 0 subscribeRequest
    busyClient rfl rfl rfl

/-- The server-misbehavior cases of the claim: an unparseable message, a
success response whose id matches no in-flight entry, an internal-error
response (code -32603), a JSON-parse-error response, or a notification
citing an unknown subscription id. -/
inductive Misbehavior (st : ReverseProxy) (sid : Nat) : ServerMessage → Prop where
  | unparseableMsg (raw : String) : Misbehavior st sid (.unparseable raw)
  | parseFailure : Misbehavior st sid .parseFailureResponse
  | internalError (id_json msg : String) :
      Misbehavior st sid (.error id_json (-32603) msg)
  | unknownRequestId (id_json result_json : String)
      (h : alistLookup (sid, id_json) st.requests_in_progress = none) :
      Misbehavior st sid (.success id_json result_json)
  | unknownSubscription (method sub : String) (params : Option String)
      (h : alistLookup (sid, sub) st.active_subscriptions = none) :
      Misbehavior st sid (.subNotificationIn method sub params)

theorem insert_proxied_of_misbehavior (st : ReverseProxy) (sid : Nat)
    (msg : ServerMessage) (hm : Misbehavior st sid msg) :
    insert_proxied_json_rpc_response st sid msg =
      (blacklist_server st sid).map (fun s => (.blacklisted, s)) := by
  cases hm with
  | unparseableMsg raw => rfl
  | parseFailure => rfl
  | internalError id_json m => simp [insert_proxied_json_rpc_response]
  | unknownRequestId id_json result_json h =>
    simp [insert_proxied_json_rpc_response, h]
  | unknownSubscription method sub params h =>
    simp [insert_proxied_json_rpc_response, h]

/-- C4: every misbehaving message from a server blacklists that server:
the call returns `Blacklisted`, the server's flag is set, and no response
is forwarded to any client (every client still present has its response
queue unchanged, and clients are only ever removed when tombstoned with an
empty queue of their own). -/
theorem server_misbehavior_blacklists (st : ReverseProxy) (sid : Nat) (srv : Server)
    (hs : slabGet st.servers sid = some srv) (msg : ServerMessage)
    (hm : Misbehavior st sid msg) :
    ∃ st', insert_proxied_json_rpc_response st sid msg = some (.blacklisted, st') ∧
      slabGet st'.servers sid = some { is_blacklisted := true } ∧
      ∀ cid c', slabGet st'.clients cid = some c' →
        ∃ c, slabGet st.clients cid = some c ∧
          c'.json_rpc_responses_queue = c.json_rpc_responses_queue := by
  obtain ⟨st', hbl, hsrv, hcli⟩ := blacklist_server_spec st sid srv hs
  refine ⟨st', ?_, hsrv, hcli⟩
  rw [insert_proxied_of_misbehavior st sid msg hm, hbl]
  rfl

/-- Witness for C4: an unparseable message blacklists server 0. -/
theorem server_misbehavior_blacklists_witness :
    ∃ st', insert_proxied_json_rpc_response singleClientProxy 0 (.unparseable "bad") =
        some (.blacklisted, st') ∧
      slabGet st'.servers 0 = some { is_blacklisted := true } ∧
      ∀ cid c', slabGet st'.clients cid = some c' →
        ∃ c, slabGet singleClientProxy.clients cid = some c ∧
          c'.json_rpc_responses_queue = c.json_rpc_responses_queue :=
  server_misbehavior_blacklists singleClientProxy 0 { is_blacklisted := false } rfl
    (.unparseable "bad") (.unparseableMsg "bad")

theorem slabGet_setClient_self (a : ReverseProxy) (cid : Nat) (c : Client)
    (h : cid < a.clients.length) : slabGet (setClient a cid c).clients cid = some c :=
  slabGet_set_self _ _ _ h

/-- C8: one iteration of `next_proxied_json_rpc_request` that pops a
legacy-sticky request from the selected client's server-agnostic queue:
if the client is already attributed to a different server, the request is
pushed to the front of the (client, sticky-server) queue and the loop
restarts client selection (`again`); if the client has no sticky server
yet, the sticky server becomes the polled server and the request is
dispatched to it (recorded in-flight under the freshly minted id). -/
theorem legacy_sticky_rerouting (st : ReverseProxy) (sid : Nat) (draw : Nat)
    (new_id : String) (cid : Nat) (client : Client) (req : QueuedRequest)
    (rest : List QueuedRequest)
    (hsel : selectClient st sid draw = some (cid, false))
    (hcl : slabGet st.clients cid = some client)
    (hq : client.server_agnostic_requests_queue = req :: rest)
    (hleg : req.is_legacy_api_server_specific = true) :
    (∀ other, client.legacy_api_assigned_server = some other → other ≠ sid →
      ∃ st', nextProxiedIteration st sid draw new_id = .again st' ∧
        ∃ tl, alistLookup (cid, other) st'.client_server_specific_requests_queued =
          some (req :: tl)) ∧
    (client.legacy_api_assigned_server = none →
      ∃ p st', nextProxiedIteration st sid draw new_id = .dispatched p st' ∧
        p = { id_json := new_id, method := req.method,
              params_json := req.parameters_json } ∧
        (∃ client', slabGet st'.clients cid = some client' ∧
          client'.legacy_api_assigned_server = some sid) ∧
        alistLookup (sid, new_id) st'.requests_in_progress = some (cid, req)) := by
  constructor
  · intro other hass hne
    simp only [nextProxiedIteration, hsel, hcl, hq, hleg, hass, if_true, if_pos hne]
    exact ⟨_, rfl, _, alistLookup_update_self _ _ _⟩
  · intro hass
    simp only [nextProxiedIteration, hsel, hcl, hq, hleg, hass, if_true]
    refine ⟨_, _, rfl, rfl, ⟨{ client with server_agnostic_requests_queue := rest, legacy_api_assigned_server := some sid }, ?_, rfl⟩, alistLookup_cons_self _ _ _⟩
    refine slabGet_setClient_self _ _ _ ?_
    by_cases hres : rest.isEmpty = true
    · rw [if_pos hres]
      simpa [setClient, slabSet] using lt_length_of_slabGet hcl
    · rw [if_neg hres]
      simpa [setClient, slabSet] using lt_length_of_slabGet hcl

/-- A client with one legacy-sticky request queued server-agnostically and
already attributed to server 1. -/
def stickyRequest : QueuedRequest :=
  { id_json := "3"
    method := "chain_getBlock"
    parameters_json := none
    is_legacy_api_server_specific := true }

def stickyClient : Client :=
  { sampleClient with
    server_agnostic_requests_queue := [stickyRequest]
    legacy_api_assigned_server := some 1 }

def stickyProxy : ReverseProxy :=
  { initialProxy with
    clients := [some stickyClient]
    clients_with_server_agnostic_request_waiting := [0]
    servers := [some { is_blacklisted := false }, some { is_blacklisted := false }] }

/-- Witness for C8: polling server 0 while client 0 is attributed to
server 1 re-queues the popped legacy request to the (0, 1) queue. -/
theorem legacy_sticky_rerouting_witness :
    ∃ st', nextProxiedIteration stickyProxy 0 0 "aa" = .again st' ∧
      ∃ tl, alistLookup (0, 1) st'.client_server_specific_requests_queued =
        some (stickyRequest :: tl) :=
  (legacy_sticky_rerouting stickyProxy 0 0 "aa" 0 stickyClient stickyRequest []
    rfl rfl rfl rfl).1 1 rfl (by decide)

/-! Reachability: the public entry points as a step relation. Randomness
is universally quantified through the explicit draw streams; a panicking
call (`none`) has no successor state. -/

inductive Step : ReverseProxy → ReverseProxy → Prop where
  | insertClientStep (st : ReverseProxy) (config : ClientConfig) :
      Step st (insert_client st config).2
  | removeClientStep (st st' : ReverseProxy) (cid : Nat)
      (h : remove_client st cid = some st') : Step st st'
  | insertRequestStep (st st' : ReverseProxy) (cid : Nat) (msg : ClientMessage)
      (out : InsertRequestOutcome)
      (h : insert_client_json_rpc_request st cid msg = some (out, st')) : Step st st'
  | nextResponseStep (st st' : ReverseProxy) (cid : Nat) (out : Option OutMessage)
      (h : next_client_json_rpc_response st cid = some (out, st')) : Step st st'
  | insertServerStep (st : ReverseProxy) : Step st (insert_server st).2
  | removeServerStep (st st' : ReverseProxy) (sid : Nat)
      (h : remove_server st sid = some st') : Step st st'
  | nextProxiedStep (st st' : ReverseProxy) (sid : Nat) (rng rng' : Rng)
      (out : Option ProxiedRequest)
      (h : next_proxied_json_rpc_request st sid rng = some (out, st', rng')) :
      Step st st'
  | insertResponseStep (st st' : ReverseProxy) (sid : Nat) (msg : ServerMessage)
      (out : InsertResponseOutcome)
      (h : insert_proxied_json_rpc_response st sid msg = some (out, st')) : Step st st'

inductive Reachable : ReverseProxy → Prop where
  | init : Reachable initialProxy
  | step {st st' : ReverseProxy} (h : Reachable st) (hs : Step st st') : Reachable st'

/-- Invariant of every reachable state of the embedded code: since the
source never enqueues a `QueuedRequest` (the enqueueing of forwarded
requests is missing from `insert_client_json_rpc_request`) and never
records a subscription, every request queue, the in-flight table and the
subscription tables stay empty. -/
def NoQueuedWork (st : ReverseProxy) : Prop :=
  (∀ oc ∈ st.clients, ∀ c : Client, oc = some c → c.server_agnostic_requests_queue = []) ∧
  st.clients_with_server_agnostic_request_waiting = [] ∧
  st.client_server_specific_requests_queued = [] ∧
  st.clients_with_server_specific_request_queued = [] ∧
  st.requests_in_progress = [] ∧
  st.active_subscriptions = [] ∧
  st.active_subscriptions_by_client = []

theorem noQueuedWork_setClient {st : ReverseProxy} (h : NoQueuedWork st) {cid : Nat}
    {c : Client} (hc : c.server_agnostic_requests_queue = []) :
    NoQueuedWork (setClient st cid c) := by
  obtain ⟨h1, h2, h3, h4, h5, h6, h7⟩ := h
  refine ⟨?_, h2, h3, h4, h5, h6, h7⟩
  intro oc hoc c2 hc2
  rcases mem_of_mem_set hoc with hm | hm
  · exact h1 oc hm c2 hc2
  · rw [hm] at hc2
    injection hc2 with hc2
    rw [← hc2]
    exact hc

theorem noQueuedWork_try_remove {st : ReverseProxy} (h : NoQueuedWork st) (cid : Nat) :
    NoQueuedWork (try_remove_client st cid) := by
  obtain ⟨h1, h2, h3, h4, h5, h6, h7⟩ := h
  unfold try_remove_client
  split
  · exact ⟨h1, h2, h3, h4, h5, h6, h7⟩
  · split
    · exact ⟨h1, h2, h3, h4, h5, h6, h7⟩
    · split
      · exact ⟨h1, h2, h3, h4, h5, h6, h7⟩
      · split
        · exact ⟨h1, h2, h3, h4, h5, h6, h7⟩
        · refine ⟨?_, h2, h3, h4, h5, h6, h7⟩
          intro oc hoc c2 hc2
          rcases mem_of_mem_set hoc with hm | hm
          · exact h1 oc hm c2 hc2
          · rw [hm] at hc2
            exact absurd hc2 (by simp)

theorem noQueuedWork_insert_client {st : ReverseProxy} (h : NoQueuedWork st)
    (config : ClientConfig) : NoQueuedWork (insert_client st config).2 := by
  obtain ⟨h1, h2, h3, h4, h5, h6, h7⟩ := h
  refine ⟨?_, h2, h3, h4, h5, h6, h7⟩
  intro oc hoc c2 hc2
  rcases mem_of_mem_slabInsertAux hoc with hm | hm
  · exact h1 oc hm c2 hc2
  · rw [hm] at hc2
    injection hc2 with hc2
    rw [← hc2]

theorem noQueuedWork_remove_client {st st' : ReverseProxy} {cid : Nat}
    (h : NoQueuedWork st) (hr : remove_client st cid = some st') :
    NoQueuedWork st' := by
  unfold remove_client at hr
  split at hr
  · simp at hr
  · rename_i client hcl
    split at hr
    · simp at hr
    · injection hr with hr
      rw [← hr]
      refine noQueuedWork_try_remove ?_ cid
      have hset := @noQueuedWork_setClient st h cid
        { client with user_data := none, server_agnostic_requests_queue := [] } rfl
      obtain ⟨g1, g2, g3, g4, g5, g6, g7⟩ := hset
      exact ⟨g1, by rw [g2]; rfl, g3, g4, g5, g6, g7⟩

theorem noQueuedWork_insert_request {st st' : ReverseProxy} {cid : Nat}
    {msg : ClientMessage} {out : InsertRequestOutcome} (h : NoQueuedWork st)
    (hr : insert_client_json_rpc_request st cid msg = some (out, st')) :
    NoQueuedWork st' := by
  unfold insert_client_json_rpc_request at hr
  split at hr
  · simp at hr
  · rename_i client hcl
    have hq : client.server_agnostic_requests_queue = [] :=
      h.1 _ (mem_of_slabGet hcl) client rfl
    repeat' split at hr
    all_goals try (exact Option.noConfusion hr)
    all_goals try (simp only [Option.some.injEq, Prod.mk.injEq] at hr)
    all_goals try (repeat' split at hr)
    all_goals try (exact Option.noConfusion hr)
    all_goals try (simp only [Option.some.injEq, Prod.mk.injEq] at hr)
    all_goals obtain ⟨hout, hstate⟩ := hr
    all_goals subst hstate
    all_goals first
      | exact h
      | exact noQueuedWork_setClient h hq

theorem noQueuedWork_next_response {st st' : ReverseProxy} {cid : Nat}
    {out : Option OutMessage} (h : NoQueuedWork st)
    (hr : next_client_json_rpc_response st cid = some (out, st')) :
    NoQueuedWork st' := by
  unfold next_client_json_rpc_response at hr
  split at hr
  · simp at hr
  · rename_i client hcl
    have hq : client.server_agnostic_requests_queue = [] :=
      h.1 _ (mem_of_slabGet hcl) client rfl
    split at hr
    · simp at hr
    · split at hr
      · injection hr with hr
        injection hr with hout hstate
        rw [← hstate]
        exact h
      · injection hr with hr
        injection hr with hout hstate
        rw [← hstate]
        exact noQueuedWork_setClient h hq

theorem noQueuedWork_insert_server {st : ReverseProxy} (h : NoQueuedWork st) :
    NoQueuedWork (insert_server st).2 := by
  obtain ⟨h1, h2, h3, h4, h5, h6, h7⟩ := h
  exact ⟨h1, h2, h3, h4, h5, h6, h7⟩

theorem noQueuedWork_blacklist {st st' : ReverseProxy} {sid : Nat}
    (h : NoQueuedWork st) (hb : blacklist_server st sid = some st') :
    NoQueuedWork st' := by
  obtain ⟨h1, h2, h3, h4, h5, h6, h7⟩ := h
  unfold blacklist_server at hb
  split at hb
  · simp at hb
  · rename_i server hs
    split at hb
    · injection hb with hb
      rw [← hb]
      exact ⟨h1, h2, h3, h4, h5, h6, h7⟩
    · injection hb with hb
      subst hb
      refine ⟨?_, ?_, ?_, ?_, ?_, ?_, ?_⟩ <;>
        simp [blacklistRequestsToCancel, h2, h3, h4, h5, h6, h7, filterKeep]
      intro oc hoc c hc
      exact h1 oc hoc c hc

theorem noQueuedWork_remove_server {st st' : ReverseProxy} {sid : Nat}
    (h : NoQueuedWork st) (hr : remove_server st sid = some st') :
    NoQueuedWork st' := by
  unfold remove_server at hr
  rcases hbs : blacklist_server st sid with _ | s
  · rw [hbs] at hr; simp at hr
  · rw [hbs] at hr
    injection hr with hr
    rw [← hr]
    obtain ⟨g1, g2, g3, g4, g5, g6, g7⟩ := noQueuedWork_blacklist ⟨h.1, h.2⟩ hbs
    exact ⟨g1, g2, g3, g4, g5, g6, g7⟩

theorem noQueuedWork_next_proxied {st st' : ReverseProxy} {sid : Nat}
    {rng rng' : Rng} {out : Option ProxiedRequest} (h : NoQueuedWork st)
    (hr : next_proxied_json_rpc_request st sid rng = some (out, st', rng')) :
    st' = st := by
  unfold next_proxied_json_rpc_request at hr
  split at hr
  · simp at hr
  · rename_i server hs
    split at hr
    · injection hr with hr
      injection hr with hout hr
      injection hr with hstate hrng
      exact hstate.symm
    · exfalso
      have hsel : selectClient st sid rng.peekNat = none := by
        unfold selectClient serverSpecificClients
        rw [h.2.2.2.1, h.2.1]
        simp [filterKeep]
      unfold nextProxiedLoop at hr
      rw [show nextProxiedIteration st sid rng.peekNat rng.peekId = .panicked by
        unfold nextProxiedIteration; rw [hsel]] at hr
      simp at hr

theorem of_map_blacklist {st st' : ReverseProxy} {sid : Nat}
    {out : InsertResponseOutcome} (h : NoQueuedWork st)
    (hr : (blacklist_server st sid).map
        (fun s => ((InsertResponseOutcome.blacklisted), s)) = some (out, st')) :
    NoQueuedWork st' := by
  rcases hbs : blacklist_server st sid with _ | s
  · rw [hbs] at hr; simp at hr
  · rw [hbs] at hr
    injection hr with hr
    injection hr with hout hstate
    rw [← hstate]
    exact noQueuedWork_blacklist h hbs

theorem noQueuedWork_insert_response {st st' : ReverseProxy} {sid : Nat}
    {msg : ServerMessage} {out : InsertResponseOutcome} (h : NoQueuedWork st)
    (hr : insert_proxied_json_rpc_response st sid msg = some (out, st')) :
    NoQueuedWork st' := by
  rcases msg with _ | ⟨id_json, result_json⟩ | ⟨id_json, code, emsg⟩ |
    ⟨method, sub, params⟩ | raw
  · exact of_map_blacklist h hr
  · simp only [insert_proxied_json_rpc_response] at hr
    rw [h.2.2.2.2.1, alistLookup_nil] at hr
    exact of_map_blacklist h hr
  · simp only [insert_proxied_json_rpc_response] at hr
    split at hr
    · exact of_map_blacklist h hr
    · exact Option.noConfusion hr
  · simp only [insert_proxied_json_rpc_response] at hr
    rw [h.2.2.2.2.2.1, alistLookup_nil] at hr
    exact of_map_blacklist h hr
  · exact of_map_blacklist h hr

theorem reachable_noQueuedWork {st : ReverseProxy} (h : Reachable st) :
    NoQueuedWork st := by
  induction h with
  | init =>
    refine ⟨?_, rfl, rfl, rfl, rfl, rfl, rfl⟩
    intro oc hoc c hc
    simp [initialProxy] at hoc
  | step hreach hstep ih =>
    cases hstep with
    | insertClientStep config => exact noQueuedWork_insert_client ih config
    | removeClientStep st' cid h => exact noQueuedWork_remove_client ih h
    | insertRequestStep st' cid msg out h => exact noQueuedWork_insert_request ih h
    | nextResponseStep st' cid out h => exact noQueuedWork_next_response ih h
    | insertServerStep => exact noQueuedWork_insert_server ih
    | removeServerStep st' sid h => exact noQueuedWork_remove_server ih h
    | nextProxiedStep st' sid rng rng' out h =>
      rw [noQueuedWork_next_proxied ih h]
      exact ih
    | insertResponseStep st' sid msg out h => exact noQueuedWork_insert_response ih h

/-- C9: in every reachable state, a blacklisted server has no in-flight
entry keyed by it, no non-empty per-(client, server) queue, and polling it
returns `None` with the state unchanged (no work routed to it). -/
theorem blacklisted_server_isolated (st : ReverseProxy) (h : Reachable st) (sid : Nat)
    (srv : Server) (hs : slabGet st.servers sid = some srv)
    (hb : srv.is_blacklisted = true) (rng : Rng) :
    (∀ e ∈ st.requests_in_progress, e.1.1 ≠ sid) ∧
    (∀ cid, alistLookup (cid, sid) st.client_server_specific_requests_queued = none) ∧
    next_proxied_json_rpc_request st sid rng = some (none, st, rng) := by
  have hw := reachable_noQueuedWork h
  refine ⟨?_, ?_, ?_⟩
  · rw [hw.2.2.2.2.1]
    intro e he
    simp at he
  · intro cid
    rw [hw.2.2.1]
    rfl
  · simp only [next_proxied_json_rpc_request, hs, hb, if_true]

/-- The state reached by inserting a server and blacklisting it with an
unparseable message. -/
def blacklistedProxy : ReverseProxy :=
  { initialProxy with servers := [some { is_blacklisted := true }] }

/-- Witness for C9: the concrete blacklisted state is reachable and
isolated. -/
theorem blacklisted_server_isolated_witness :
    (∀ e ∈ blacklistedProxy.requests_in_progress, e.1.1 ≠ 0) ∧
    (∀ cid, alistLookup (cid, 0) blacklistedProxy.client_server_specific_requests_queued = none) ∧
    next_proxied_json_rpc_request blacklistedProxy 0 { nat_draws := [], id_draws := [] } =
      some (none, blacklistedProxy, { nat_draws := [], id_draws := [] }) :=
  blacklisted_server_isolated blacklistedProxy
    (Reachable.step (Reachable.step Reachable.init (Step.insertServerStep initialProxy))
      (Step.insertResponseStep (insert_server initialProxy).2 blacklistedProxy 0
        (.unparseable "bad") .blacklisted (by decide)))
    0 { is_blacklisted := true } rfl rfl { nat_draws := [], id_draws := [] }

end Smoldot
